import Mathlib

/-!
Verification of the tide-monitoring subsystem.

Shallow embedding of the relevant code:
* `tide_forecast_simple.py` — Hindu-calendar tables, the tide-height
  calculator, the tide predictor (namespace `TideForecastSimple`);
* `tide_monitoring_service.py` — risk assessment and the alert lifecycle
  (namespace `TideMonitoringService`);
* `tide_api.py` — the forecast and alert-list HTTP handlers
  (namespace `TideApi`).

Modelling conventions, stated once:
* Wall-clock instants are integers (seconds).  Each Python operation calls
  `datetime.now()` several times within one call; the embedding treats one
  call as happening at a single instant `now` passed as a parameter.
* Float heights, wind speeds and thresholds of the monitoring layer are
  embedded as exact rationals: that layer only compares them against
  rational constants.  The tide calculator itself evaluates `math.sin`,
  so it is embedded over the real numbers.
* The weather strings produced by the predictor (`"18.0 m/s"` …) are
  parsed back to numbers by the monitoring layer inside `try`/`except`;
  the embedding stores the parse result directly as an `Option` of the
  numeric value (`none` = unparseable string, the `except: pass` path).
* The predictor's weather simulation uses `random`; the current prediction,
  the forecast points and the weather samples are therefore inputs of the
  embedded operations rather than being recomputed.
-/

namespace TideMonitoringService

/-- Weather dictionary attached to a prediction
(`tide_forecast_simple.py` builds it; `_assess_current_risk` reads
`condition` and parses `wind_speed`).  `wind_speed` is the parsed numeric
value of the `"x.x m/s"` string, `none` when unparseable. -/
structure WeatherInfo where
  condition : String
  wind_speed : Option ℚ
deriving DecidableEq

/-- The `hindu_factors` dictionary of a prediction
(`HinduCalendar.get_current_hindu_date`). -/
structure HinduFactors where
  tithi : String
  nakshatra : String
  paksha : String
  lunar_day : ℕ
deriving DecidableEq

/-- Embeds `TidePrediction` as consumed by the monitoring service
(`tide_forecast_simple.py` lines 21-28); `timestamp` in seconds. -/
structure TidePrediction where
  timestamp : Int
  height_meters : ℚ
  tide_type : String
  confidence : ℚ
  hindu_factors : HinduFactors
  weather_info : Option WeatherInfo
deriving DecidableEq

/-- Threshold `self.high_tide_threshold = 3.0` (`tide_monitoring_service.py` line 103). -/
def high_tide_threshold : ℚ := 3
/-- Threshold `self.storm_surge_threshold = 4.0` (`tide_monitoring_service.py` line 105). -/
def storm_surge_threshold : ℚ := 4

/-- Result of `_assess_current_risk`. -/
structure RiskAssessment where
  level : String
  score : Int
  factors : List String
  recommendations : List String
deriving DecidableEq

/-- Embeds `TideMonitoringService._get_risk_recommendations` (lines 267-305). -/
def get_risk_recommendations (risk_level : String) (factors : List String) :
    List String :=
  let recommendations : List String :=
    if risk_level = "CRITICAL" then
      ["Immediate evacuation of low-lying coastal areas",
       "Activate emergency response protocols",
       "Issue public safety announcements",
       "Monitor tide gauges continuously"]
    else if risk_level = "HIGH" then
      ["Prepare for potential flooding",
       "Secure loose objects and boats",
       "Monitor weather updates",
       "Have emergency supplies ready"]
    else if risk_level = "MEDIUM" then
      ["Exercise caution near water",
       "Monitor tide conditions",
       "Stay informed of weather changes"]
    else if risk_level = "LOW" then
      ["Normal coastal activities",
       "Regular monitoring recommended"]
    else []
  let r1 := if "High tide conditions" ∈ factors then
      recommendations ++ ["Avoid low-lying coastal areas during high tide"]
    else recommendations
  let r2 := if "Stormy weather" ∈ factors then
      r1 ++ ["Stay indoors and away from windows"] else r1
  let r3 := if "High winds" ∈ factors then
      r2 ++ ["Secure outdoor objects and avoid coastal areas"] else r2
  r3

/-- Embeds `TideMonitoringService._assess_current_risk` (lines 207-265).
Score contributions in source order: tide height, weather condition, wind,
then one point per over-threshold point among the first six forecast
entries; five-level scale on the total.  The final `list(set(...))` on the
factors (line 263, unordered in Python) is embedded as `List.dedup`; the
recommendations are computed from the raw factor list, as in line 264. -/
def assess_current_risk (current? : Option TidePrediction)
    (forecast : List TidePrediction) : RiskAssessment :=
  let (s1, f1) : Int × List String :=
    match current? with
    | none => (0, [])
    | some current =>
      let (sh, fh) : Int × List String :=
        if current.height_meters > storm_surge_threshold then
          (5, ["Storm surge conditions"])
        else if current.height_meters > high_tide_threshold then
          (3, ["High tide conditions"])
        else (0, [])
      let (sw, fw) : Int × List String :=
        match current.weather_info with
        | none => (0, [])
        | some w =>
          let (sc, fc) : Int × List String :=
            if w.condition = "stormy" then (4, ["Stormy weather"])
            else if w.condition = "rainy" then (2, ["Rainy conditions"])
            else (0, [])
          let (sv, fv) : Int × List String :=
            match w.wind_speed with
            | none => (0, [])
            | some wind =>
              if wind > 15 then (3, ["High winds"])
              else if wind > 10 then (2, ["Moderate winds"])
              else (0, [])
          (sc + sv, fc ++ fv)
      (sh + sw, fh ++ fw)
  let over := (forecast.take 6).filter
    (fun p => p.height_meters > high_tide_threshold)
  let risk_score : Int := s1 + over.length
  let risk_factors := f1 ++ over.map (fun _ => "High tide forecast")
  let risk_level :=
    if risk_score ≥ 8 then "CRITICAL"
    else if risk_score ≥ 6 then "HIGH"
    else if risk_score ≥ 4 then "MEDIUM"
    else if risk_score ≥ 2 then "LOW"
    else "MINIMAL"
  { level := risk_level, score := risk_score, factors := risk_factors.dedup,
    recommendations := get_risk_recommendations risk_level risk_factors }

/-- Embeds `TideAlert` (`tide_monitoring_service.py` lines 44-56); times in
seconds, location as a latitude/longitude pair. -/
structure TideAlert where
  alert_id : String
  timestamp : Int
  alert_type : String
  severity : String
  location : ℚ × ℚ
  tide_height : ℚ
  predicted_impact : String
  recommendations : List String
  expires_at : Int
  is_active : Bool
deriving DecidableEq

/-- The `tide_data` dictionary passed to `generate_tide_alert`. -/
structure TideData where
  height : ℚ
  impact : String
  recommendations : List String
deriving DecidableEq

/-- Embeds `TideMonitoringService.generate_tide_alert` (lines 316-343): builds the
alert (expiry gap per severity, in seconds: 2 h, 4 h, 6 h, else 12 h),
appends it to the alert collection, and returns it. -/
def generate_tide_alert (lat lon : ℚ) (now : Int)
    (alert_type severity : String) (tide_data : TideData)
    (active_alerts : List TideAlert) : TideAlert × List TideAlert :=
  let expires_in : Int :=
    if severity = "CRITICAL" then 7200
    else if severity = "HIGH" then 14400
    else if severity = "MEDIUM" then 21600
    else 43200
  let alert : TideAlert :=
    { alert_id := "tide_" ++ alert_type ++ "_" ++ toString now
      timestamp := now
      alert_type := alert_type
      severity := severity
      location := (lat, lon)
      tide_height := tide_data.height
      predicted_impact := tide_data.impact
      recommendations := tide_data.recommendations
      expires_at := now + expires_in
      is_active := true }
  (alert, active_alerts ++ [alert])

/-- The expiry flip of `_cleanup_expired_alerts` (lines 402-404): an alert
strictly past `expires_at` is marked inactive. -/
def expire_flip (now : Int) (a : TideAlert) : TideAlert :=
  if a.expires_at < now then { a with is_active := false } else a

/-- The retention test of `_cleanup_expired_alerts` (lines 406-409): keep
an alert if it is active or newer than the 24-hour cutoff. -/
def retain (now : Int) (a : TideAlert) : Bool :=
  a.is_active || decide (now - 86400 < a.timestamp)

/-- Embeds `TideMonitoringService._cleanup_expired_alerts` (lines 399-409). -/
def cleanup_expired_alerts (alerts : List TideAlert) (now : Int) :
    List TideAlert :=
  (alerts.map (expire_flip now)).filter (retain now)

/-- The deduplication predicate of lines 380-381: an active alert of type
COASTAL_RISK. -/
def coastalActive (a : TideAlert) : Bool :=
  a.alert_type == "COASTAL_RISK" && a.is_active

/-- Number of active COASTAL_RISK alerts in the collection. -/
def countActiveCoastal (l : List TideAlert) : ℕ :=
  (l.filter coastalActive).length

/-- Tide-height alert phase of `check_and_generate_alerts` (lines 350-374):
a Python-truthy height above the storm-surge threshold creates a CRITICAL
STORM_SURGE alert, `elif` above the high-tide threshold a HIGH HIGH_TIDE
alert; no deduplication check.  Returns the new collection and the list of
alerts created by this phase. -/
def tide_height_alerts (lat lon : ℚ) (now : Int) (height? : Option ℚ)
    (s : List TideAlert) : List TideAlert × List TideAlert :=
  match height? with
  | none => (s, [])
  | some height =>
    if height ≠ 0 then
      if height > storm_surge_threshold then
        let r := generate_tide_alert lat lon now "STORM_SURGE" "CRITICAL"
          { height := height, impact := "Severe coastal flooding expected",
            recommendations :=
              ["Immediate evacuation", "Emergency response activation"] } s
        (r.snd, [r.fst])
      else if height > high_tide_threshold then
        let r := generate_tide_alert lat lon now "HIGH_TIDE" "HIGH"
          { height := height, impact := "Coastal flooding possible",
            recommendations := ["Avoid low-lying areas", "Monitor conditions"] } s
        (r.snd, [r.fst])
      else (s, [])
    else (s, [])

/-- Coastal-risk phase of `check_and_generate_alerts` (lines 376-392): when
the assessed level is HIGH or CRITICAL and no active COASTAL_RISK alert is
already present in the (un-swept) collection, one COASTAL_RISK alert is
created; its height is `height or 0` in Python. -/
def coastal_risk_alerts (lat lon : ℚ) (now : Int) (height? : Option ℚ)
    (risk_level : String) (risk_recommendations : List String)
    (s1 : List TideAlert) : List TideAlert × List TideAlert :=
  if risk_level = "HIGH" ∨ risk_level = "CRITICAL" then
    if s1.filter coastalActive = [] then
      let height0 : ℚ :=
        match height? with
        | some h => if h ≠ 0 then h else 0
        | none => 0
      let r := generate_tide_alert lat lon now "COASTAL_RISK" risk_level
        { height := height0, impact := "Coastal risk level: " ++ risk_level,
          recommendations := risk_recommendations } s1
      (r.snd, [r.fst])
    else (s1, [])
  else (s1, [])

/-- Embeds `TideMonitoringService.check_and_generate_alerts` (lines 345-397).
The current prediction and the 6-hour forecast come from
`get_current_tide_status` (whose forecast generation is stochastic) and are
inputs here; the risk assessment is recomputed from them exactly as the
status call does.  The expiry sweep runs last, after both alert phases.
Returns the new alert collection and the list of newly created alerts. -/
def check_and_generate_alerts (lat lon : ℚ) (s : List TideAlert)
    (current? : Option TidePrediction) (forecast : List TidePrediction)
    (now : Int) : List TideAlert × List TideAlert :=
  let current_risk := assess_current_risk current? forecast
  let height? : Option ℚ := current?.map (fun p => p.height_meters)
  let r1 := tide_height_alerts lat lon now height? s
  let r2 := coastal_risk_alerts lat lon now height? current_risk.level
    current_risk.recommendations r1.fst
  (cleanup_expired_alerts r2.fst now, r1.snd ++ r2.snd)

/-- One observation step of the monitoring loop: the stochastic signals a
single `check_and_generate_alerts` call reads. -/
structure CheckEnv where
  current? : Option TidePrediction
  forecast : List TidePrediction
  now : Int

/-- A sequence of `check_and_generate_alerts` calls, threading the alert
collection. -/
def run_checks (lat lon : ℚ) (s : List TideAlert) :
    List CheckEnv → List TideAlert
  | [] => s
  | e :: es =>
    run_checks lat lon
      (check_and_generate_alerts lat lon s e.current? e.forecast e.now).fst es

/-- The `active_alerts` count reported by `get_current_tide_status`
(line 147): a plain filter on the un-swept collection. -/
def status_active_alert_count (active_alerts : List TideAlert) : ℕ :=
  (active_alerts.filter (fun a => a.is_active)).length

/-- The fixed high-risk mansion subset of
`TidePredictor.get_hazard_assessment` (`tide_forecast_simple.py` line 309). -/
def high_risk_nakshatras : List String :=
  ["Ashwini", "Krittika", "Ardra", "Pushya", "Magha", "Chitra", "Vishakha",
   "Jyeshtha", "Purva Ashadha", "Shravana", "Shatabhisha", "Purva Bhadrapada"]

/-- Current prediction of the C1 scenario: height 3.5 m at high tide,
stormy weather, wind 18 m/s, mansion Ashwini (a member of the fixed
high-risk subset of `get_hazard_assessment`). -/
def c1_current : TidePrediction :=
  { timestamp := 0, height_meters := 3.5, tide_type := "high",
    confidence := 0.85,
    hindu_factors := { tithi := "Purnima", nakshatra := "Ashwini",
                       paksha := "Shukla", lunar_day := 1 },
    weather_info := some { condition := "stormy", wind_speed := some 18 } }

/-- Forecast of the C1 scenario: six hourly points, none above the 3.0 m
high-tide threshold. -/
def c1_forecast : List TidePrediction :=
  [3600, 7200, 10800, 14400, 18000, 21600].map (fun t =>
    { timestamp := t, height_meters := 2, tide_type := "falling",
      confidence := 0.85,
      hindu_factors := { tithi := "Purnima", nakshatra := "Ashwini",
                         paksha := "Shukla", lunar_day := 1 },
      weather_info := none })

/-- An active COASTAL_RISK alert whose expiry instant 5 is already past at
the observation time 10 of the C5 scenario. -/
def c5_stale : TideAlert :=
  { alert_id := "tide_COASTAL_RISK_0", timestamp := 0,
    alert_type := "COASTAL_RISK", severity := "CRITICAL", location := (0, 0),
    tide_height := 0, predicted_impact := "Coastal risk level: CRITICAL",
    recommendations := [], expires_at := 5, is_active := true }

/-- Current prediction of the C5 scenario, assessed at level CRITICAL
(height 3.5 high + stormy + wind 18). -/
def c5_current : TidePrediction :=
  { timestamp := 0, height_meters := 3.5, tide_type := "high",
    confidence := 0.85,
    hindu_factors := { tithi := "Pratipada", nakshatra := "Bharani",
                       paksha := "Shukla", lunar_day := 2 },
    weather_info := some { condition := "stormy", wind_speed := some 18 } }

/-- An active, unexpired alert used to witness the amended C5 theorem. -/
def c5_live : TideAlert :=
  { alert_id := "tide_HIGH_TIDE_live", timestamp := 0,
    alert_type := "HIGH_TIDE", severity := "HIGH", location := (0, 0),
    tide_height := 3, predicted_impact := "Coastal flooding possible",
    recommendations := [], expires_at := 100, is_active := true }

end TideMonitoringService

namespace TideForecastSimple

/-- The fields of a Python `datetime` the predictor actually reads:
day of month (for the Hindu calendar) and hour/minute of day (for the
tide waveform).  The calendar arithmetic `start + timedelta(hours=i)` is
delegated to a caller-supplied indexing function. -/
structure SimTime where
  day : ℕ
  hour : ℕ
  minute : ℕ
deriving DecidableEq

/-- Embeds `HinduCalendar.nakshatras` (`tide_forecast_simple.py` lines 42-48). -/
def nakshatras : List String :=
  ["Ashwini", "Bharani", "Krittika", "Rohini", "Mrigashira", "Ardra",
   "Punarvasu", "Pushya", "Ashlesha", "Magha", "Purva Phalguni",
   "Uttara Phalguni", "Hasta", "Chitra", "Swati", "Vishakha", "Anuradha",
   "Jyeshtha", "Mula", "Purva Ashadha", "Uttara Ashadha", "Shravana",
   "Dhanishta", "Shatabhisha", "Purva Bhadrapada", "Uttara Bhadrapada",
   "Revati"]

/-- Embeds `HinduCalendar.tithis` (lines 50-56). -/
def tithis : List String :=
  ["Pratipada", "Dwitiya", "Tritiya", "Chaturthi", "Panchami", "Shashthi",
   "Saptami", "Ashtami", "Navami", "Dashami", "Ekadashi", "Dwadashi",
   "Trayodashi", "Chaturdashi", "Purnima", "Pratipada", "Dwitiya", "Tritiya",
   "Chaturthi", "Panchami", "Shashthi", "Saptami", "Ashtami", "Navami",
   "Dashami", "Ekadashi", "Dwadashi", "Trayodashi", "Chaturdashi", "Amavasya"]

/-- Embeds `HinduCalendar.get_current_hindu_date` (lines 58-80); the month is read
but unused by the source. -/
def get_current_hindu_date (date : SimTime) :
    TideMonitoringService.HinduFactors :=
  let day_of_month := date.day
  let tithi_num := (day_of_month - 1) % 30
  let tithi := tithis.getD tithi_num ""
  let nakshatra_num := (day_of_month - 1) % 27
  let nakshatra := nakshatras.getD nakshatra_num ""
  let paksha := if tithi_num < 15 then "Shukla" else "Krishna"
  { tithi := tithi, nakshatra := nakshatra, paksha := paksha,
    lunar_day := tithi_num + 1 }

/-- One entry of the `nakshatra_tides` table. -/
structure NakshatraTide where
  strength : String
  direction : String
  risk : String
deriving DecidableEq

/-- The 27-entry `nakshatra_tides` dictionary of
`HinduCalendar.get_tide_influence` (lines 88-116), with the `.get` default
`{moderate, stable, medium}` of line 127. -/
def nakshatra_tides (n : String) : NakshatraTide :=
  if n = "Ashwini" then ⟨"strong", "rising", "high"⟩
  else if n = "Bharani" then ⟨"moderate", "rising", "medium"⟩
  else if n = "Krittika" then ⟨"strong", "high", "high"⟩
  else if n = "Rohini" then ⟨"moderate", "falling", "medium"⟩
  else if n = "Mrigashira" then ⟨"weak", "low", "low"⟩
  else if n = "Ardra" then ⟨"strong", "rising", "high"⟩
  else if n = "Punarvasu" then ⟨"moderate", "high", "medium"⟩
  else if n = "Pushya" then ⟨"strong", "falling", "high"⟩
  else if n = "Ashlesha" then ⟨"weak", "low", "low"⟩
  else if n = "Magha" then ⟨"strong", "rising", "high"⟩
  else if n = "Purva Phalguni" then ⟨"moderate", "high", "medium"⟩
  else if n = "Uttara Phalguni" then ⟨"strong", "falling", "high"⟩
  else if n = "Hasta" then ⟨"weak", "low", "low"⟩
  else if n = "Chitra" then ⟨"strong", "rising", "high"⟩
  else if n = "Swati" then ⟨"moderate", "high", "medium"⟩
  else if n = "Vishakha" then ⟨"strong", "falling", "high"⟩
  else if n = "Anuradha" then ⟨"weak", "low", "low"⟩
  else if n = "Jyeshtha" then ⟨"strong", "rising", "high"⟩
  else if n = "Mula" then ⟨"moderate", "high", "medium"⟩
  else if n = "Purva Ashadha" then ⟨"strong", "falling", "high"⟩
  else if n = "Uttara Ashadha" then ⟨"weak", "low", "low"⟩
  else if n = "Shravana" then ⟨"strong", "rising", "high"⟩
  else if n = "Dhanishta" then ⟨"moderate", "high", "medium"⟩
  else if n = "Shatabhisha" then ⟨"strong", "falling", "high"⟩
  else if n = "Purva Bhadrapada" then ⟨"weak", "low", "low"⟩
  else if n = "Uttara Bhadrapada" then ⟨"strong", "rising", "high"⟩
  else if n = "Revati" then ⟨"moderate", "high", "medium"⟩
  else ⟨"moderate", "stable", "medium"⟩

/-- The `tithi_amplification` dictionary (lines 119-125) with `.get`
default 1.0 (line 128); kept rational, cast to ℝ where multiplied. -/
def tithi_amplification_of (t : String) : ℚ :=
  if t = "Purnima" then 1.5
  else if t = "Amavasya" then 1.4
  else if t = "Ekadashi" then 1.2
  else if t = "Ashtami" then 1.1
  else if t = "Chaturdashi" then 1.3
  else 1

/-- Result of `HinduCalendar.get_tide_influence`. -/
structure TideInfluence where
  nakshatra_tide : NakshatraTide
  tithi_amplification : ℚ
  overall_strength : String
  direction : String
  risk_level : String
  recommendation : String
deriving DecidableEq

/-- Embeds `HinduCalendar._get_recommendation` (lines 139-146). -/
def hindu_recommendation (tide_info : NakshatraTide) : String :=
  if tide_info.risk = "high" then
    "High tide alert - monitor coastal areas closely"
  else if tide_info.risk = "medium" then
    "Moderate tides - normal coastal monitoring"
  else "Low tides - reduced coastal risk"

/-- Embeds `HinduCalendar.get_tide_influence` (lines 82-137). -/
def get_tide_influence (hindu_date : TideMonitoringService.HinduFactors) :
    TideInfluence :=
  let base_tide := nakshatra_tides hindu_date.nakshatra
  let amplification := tithi_amplification_of hindu_date.tithi
  { nakshatra_tide := base_tide
    tithi_amplification := amplification
    overall_strength := base_tide.strength
    direction := base_tide.direction
    risk_level := base_tide.risk
    recommendation := hindu_recommendation base_tide }

/-- The `strength_multiplier` dictionary of `calculate_tide_height`
(lines 163-170) with `.get` default 1.0; rational, cast where used. -/
def strength_multiplier_of (s : String) : ℚ :=
  if s = "strong" then 1.3
  else if s = "moderate" then 1.1
  else if s = "weak" then 0.9
  else 1

/-- The base astronomical waveform of `TideCalculator.calculate_tide_height`
(lines 159-160): `base_height + 0.5 * sin(2π * hour_factor / 12.42)` with
`hour_factor = hour + minute / 60`.  The sinusoid coefficient is the
literal `0.5` of the source; the calculator's `tide_range` field is not
read here. -/
noncomputable def astronomical_tide (base_height : ℝ) (hour minute : ℕ) : ℝ :=
  let hour_factor : ℝ := (hour : ℝ) + (minute : ℝ) / 60
  base_height + 0.5 * Real.sin (2 * Real.pi * hour_factor / 12.42)

/-- Modelled from the spec (§4.1): `height(t, base_height, amplitude) =
base_height + amplitude/2 · sin(2π · hour_fraction(t) / 12.42)`; stated for
comparison with the source's `astronomical_tide`. -/
noncomputable def astronomical_tide_spec (base_height amplitude : ℝ)
    (hour minute : ℕ) : ℝ :=
  base_height + amplitude / 2 *
    Real.sin (2 * Real.pi * ((hour : ℝ) + (minute : ℝ) / 60) / 12.42)

/-- Embeds `TideCalculator.calculate_tide_height` (lines 156-183).  `tide_range`
is the constructor field of the calculator (default 2.0); the body never
reads it.  The result is clamped to [0.1, 5.0]. -/
noncomputable def calculate_tide_height (base_height tide_range : ℝ)
    (time : SimTime) (hindu_influence : TideInfluence) : ℝ :=
  let astronomical := astronomical_tide base_height time.hour time.minute
  let multiplier : ℝ :=
    (strength_multiplier_of hindu_influence.nakshatra_tide.strength : ℝ)
  let amplification : ℝ := (hindu_influence.tithi_amplification : ℝ)
  let final_height := astronomical * multiplier * amplification
  let random_factor := 0.1 * Real.sin ((time.hour : ℝ) * 0.5)
  max 0.1 (min 5.0 (final_height + random_factor))

/-- Embeds `TideCalculator.determine_tide_type` (lines 185-194). -/
noncomputable def determine_tide_type (base_height : ℝ) (height : ℝ)
    (time : SimTime) : String :=
  if height > base_height + 0.5 then "high"
  else if height < base_height - 0.5 then "low"
  else if time.hour % 6 < 3 then "rising"
  else "falling"

/-- Embeds `WeatherData` (lines 30-36); the random draws of
`WeatherSimulator.get_weather` are inputs of the embedding. -/
structure WeatherData where
  temperature : ℝ
  condition : String
  wind_speed : ℝ
  humidity : ℝ

/-- A predictor-side tide prediction (lines 21-28).  `step` is the hour
index within the forecast; `weather_info` keeps the numeric weather sample
(the source formats it into strings that the monitoring layer parses
back). -/
structure TidePrediction where
  step : ℕ
  time : SimTime
  height_meters : ℝ
  tide_type : String
  confidence : ℝ
  hindu_factors : TideMonitoringService.HinduFactors
  weather_info : Option WeatherData

/-- The body of the `predict_tides` loop (lines 248-279) for hour index
`i`: `times i` is `start + timedelta(hours=i)` and `weatherAt i` the
weather sample drawn at that step. -/
noncomputable def mkPrediction (times : ℕ → SimTime)
    (weatherAt : ℕ → WeatherData) (i : ℕ) : TidePrediction :=
  let t := times i
  let hindu_date := get_current_hindu_date t
  let tide_influence := get_tide_influence hindu_date
  let tide_height := calculate_tide_height 1.5 2 t tide_influence
  { step := i
    time := t
    height_meters := tide_height
    tide_type := determine_tide_type 1.5 tide_height t
    confidence := 0.85
    hindu_factors := hindu_date
    weather_info := some (weatherAt i) }

/-- Embeds `TidePredictor.predict_tides` (lines 244-281): one prediction per hour,
`days * 24` entries. -/
noncomputable def predict_tides (times : ℕ → SimTime)
    (weatherAt : ℕ → WeatherData) (days : ℕ) : List TidePrediction :=
  (List.range (days * 24)).map (mkPrediction times weatherAt)

end TideForecastSimple

namespace TideApi

/-- A Flask handler outcome: a JSON payload with a status code, or a
structured `{error: ...}` body with a status code. -/
inductive ApiResponse (α : Type) where
  | ok (value : α) (status : ℕ)
  | error (message : String) (status : ℕ)
deriving DecidableEq

/-- The forecast route `get_tide_forecast` (`tide_api.py` lines 96-112),
after Flask's query parsing, with the monitoring service initialized (the
503/500 guards are out of scope).  The handler clamps the requested
horizon with `min(max(days, 1), 14)` and returns a forecast for the
clamped horizon; the embedding records the horizon actually used. -/
def get_tide_forecast_route (days : Int) : ApiResponse Int :=
  let days := min (max days 1) 14
  .ok days 200

/-- The alert-list route `get_alerts` (`tide_api.py` lines 114-158), with
the service initialized: filters by the optional type and severity query
values, then serializes only the active alerts.  No filter value is ever
rejected. -/
def get_alerts_route (alert_type severity : Option String)
    (alerts : List TideMonitoringService.TideAlert) :
    ApiResponse (List TideMonitoringService.TideAlert) :=
  let alerts1 : List TideMonitoringService.TideAlert := match alert_type with
    | some t => alerts.filter (fun a => a.alert_type == t)
    | none => alerts
  let alerts2 : List TideMonitoringService.TideAlert := match severity with
    | some sv => alerts1.filter (fun a => a.severity == sv)
    | none => alerts1
  .ok (alerts2.filter (fun a => a.is_active)) 200

/-- A sample active HIGH_TIDE alert for the alert-list route scenarios. -/
def c3_alert : TideMonitoringService.TideAlert :=
  { alert_id := "tide_HIGH_TIDE_0", timestamp := 0, alert_type := "HIGH_TIDE",
    severity := "HIGH", location := (0, 0), tide_height := 3.5,
    predicted_impact := "Coastal flooding possible", recommendations := [],
    expires_at := 14400, is_active := true }

end TideApi

namespace TideMonitoringService

lemma expire_flip_idem (now : Int) (a : TideAlert) :
    expire_flip now (expire_flip now a) = expire_flip now a := by
  unfold expire_flip
  split_ifs <;> simp_all

lemma mem_cleanup_elim {l : List TideAlert} {now : Int} {a : TideAlert}
    (ha : a ∈ cleanup_expired_alerts l now) :
    (∃ b ∈ l, expire_flip now b = a) ∧ retain now a = true := by
  unfold cleanup_expired_alerts at ha
  exact ⟨List.mem_map.mp (List.mem_of_mem_filter ha), List.of_mem_filter ha⟩

lemma mem_cleanup_of_mem {l : List TideAlert} {now : Int} {a : TideAlert}
    (ha : a ∈ l) (h1 : expire_flip now a = a) (h2 : retain now a = true) :
    a ∈ cleanup_expired_alerts l now := by
  unfold cleanup_expired_alerts
  refine List.mem_filter.mpr ⟨?_, h2⟩
  have := List.mem_map_of_mem (expire_flip now) ha
  rwa [h1] at this

lemma countActiveCoastal_append (l₁ l₂ : List TideAlert) :
    countActiveCoastal (l₁ ++ l₂) =
      countActiveCoastal l₁ + countActiveCoastal l₂ := by
  simp [countActiveCoastal, List.filter_append]

lemma coastalActive_expire_flip {now : Int} {a : TideAlert}
    (h : coastalActive (expire_flip now a) = true) : coastalActive a = true := by
  unfold expire_flip coastalActive at *
  split_ifs at h <;> simp_all

lemma countActiveCoastal_filter_le (q : TideAlert → Bool) (l : List TideAlert) :
    countActiveCoastal (l.filter q) ≤ countActiveCoastal l :=
  List.Sublist.length_le (List.Sublist.filter coastalActive (List.filter_sublist l))

lemma countActiveCoastal_map_flip_le (now : Int) (l : List TideAlert) :
    countActiveCoastal (l.map (expire_flip now)) ≤ countActiveCoastal l := by
  unfold countActiveCoastal
  rw [List.filter_map, List.length_map]
  exact List.Sublist.length_le
    (List.monotone_filter_right l (fun a ha => coastalActive_expire_flip ha))

lemma countActiveCoastal_cleanup_le (l : List TideAlert) (now : Int) :
    countActiveCoastal (cleanup_expired_alerts l now) ≤ countActiveCoastal l :=
  le_trans (countActiveCoastal_filter_le _ _) (countActiveCoastal_map_flip_le now l)

lemma countActiveCoastal_tide_height_alerts (lat lon : ℚ) (now : Int)
    (height? : Option ℚ) (s : List TideAlert) :
    countActiveCoastal (tide_height_alerts lat lon now height? s).fst =
      countActiveCoastal s := by
  unfold tide_height_alerts generate_tide_alert
  cases height? with
  | none => rfl
  | some h =>
    dsimp only
    split_ifs <;>
      simp [countActiveCoastal_append, countActiveCoastal, coastalActive]

lemma tide_height_alerts_fst_eq (lat lon : ℚ) (now : Int)
    (height? : Option ℚ) (s : List TideAlert) :
    (tide_height_alerts lat lon now height? s).fst =
      s ++ (tide_height_alerts lat lon now height? s).snd := by
  unfold tide_height_alerts generate_tide_alert
  cases height? with
  | none => simp
  | some h =>
    dsimp only
    split_ifs <;> simp

lemma coastal_risk_alerts_fst_eq (lat lon : ℚ) (now : Int)
    (height? : Option ℚ) (lvl : String) (recs : List String)
    (s1 : List TideAlert) :
    (coastal_risk_alerts lat lon now height? lvl recs s1).fst =
      s1 ++ (coastal_risk_alerts lat lon now height? lvl recs s1).snd := by
  unfold coastal_risk_alerts generate_tide_alert
  split_ifs <;> simp

lemma coastal_risk_alerts_snd_type (lat lon : ℚ) (now : Int)
    (height? : Option ℚ) (lvl : String) (recs : List String)
    (s1 : List TideAlert) :
    ∀ a ∈ (coastal_risk_alerts lat lon now height? lvl recs s1).snd,
      a.alert_type = "COASTAL_RISK" := by
  unfold coastal_risk_alerts generate_tide_alert
  split_ifs <;> simp

lemma generate_tide_alert_snd (lat lon : ℚ) (now : Int) (atype sev : String)
    (td : TideData) (s : List TideAlert) :
    (generate_tide_alert lat lon now atype sev td s).snd =
      s ++ [(generate_tide_alert lat lon now atype sev td s).fst] := rfl

lemma generate_tide_alert_fields (lat lon : ℚ) (now : Int) (atype sev : String)
    (td : TideData) (s : List TideAlert) :
    (generate_tide_alert lat lon now atype sev td s).fst.alert_type = atype ∧
    (generate_tide_alert lat lon now atype sev td s).fst.severity = sev ∧
    (generate_tide_alert lat lon now atype sev td s).fst.timestamp = now ∧
    (generate_tide_alert lat lon now atype sev td s).fst.is_active = true :=
  ⟨rfl, rfl, rfl, rfl⟩

lemma generate_tide_alert_expires_at (lat lon : ℚ) (now : Int)
    (atype sev : String) (td : TideData) (s : List TideAlert) :
    (generate_tide_alert lat lon now atype sev td s).fst.expires_at =
      now + (if sev = "CRITICAL" then 7200
        else if sev = "HIGH" then 14400
        else if sev = "MEDIUM" then 21600
        else 43200) := rfl

lemma countActiveCoastal_generate_snd (lat lon : ℚ) (now : Int)
    (atype sev : String) (td : TideData) (s : List TideAlert) :
    countActiveCoastal (generate_tide_alert lat lon now atype sev td s).snd =
      countActiveCoastal s + (if atype = "COASTAL_RISK" then 1 else 0) := by
  rw [generate_tide_alert_snd, countActiveCoastal_append]
  congr 1
  have hat := (generate_tide_alert_fields lat lon now atype sev td s).1
  have hac := (generate_tide_alert_fields lat lon now atype sev td s).2.2.2
  unfold countActiveCoastal coastalActive
  by_cases h : atype = "COASTAL_RISK"
  · subst h
    simp [List.filter_cons, hat, hac]
  · simp [List.filter_cons, hat, hac, h]

lemma countActiveCoastal_coastal_risk_alerts (lat lon : ℚ) (now : Int)
    (height? : Option ℚ) (lvl : String) (recs : List String)
    (s1 : List TideAlert) (h : countActiveCoastal s1 ≤ 1) :
    countActiveCoastal
      (coastal_risk_alerts lat lon now height? lvl recs s1).fst ≤ 1 := by
  unfold coastal_risk_alerts
  split_ifs with h1 h2
  · dsimp only
    rw [countActiveCoastal_generate_snd]
    have h0 : countActiveCoastal s1 = 0 := by
      unfold countActiveCoastal
      rw [h2]
      rfl
    rw [h0]
    simp
  · exact h
  · exact h

lemma check_preserves_coastal (lat lon : ℚ) (s : List TideAlert)
    (cur? : Option TidePrediction) (fc : List TidePrediction) (now : Int)
    (h : countActiveCoastal s ≤ 1) :
    countActiveCoastal
      (check_and_generate_alerts lat lon s cur? fc now).fst ≤ 1 := by
  have hfst : (check_and_generate_alerts lat lon s cur? fc now).fst =
      cleanup_expired_alerts
        (coastal_risk_alerts lat lon now (cur?.map (fun p => p.height_meters))
          (assess_current_risk cur? fc).level
          (assess_current_risk cur? fc).recommendations
          (tide_height_alerts lat lon now
            (cur?.map (fun p => p.height_meters)) s).fst).fst now := rfl
  rw [hfst]
  refine le_trans (countActiveCoastal_cleanup_le _ _) ?_
  apply countActiveCoastal_coastal_risk_alerts
  rw [countActiveCoastal_tide_height_alerts]
  exact h

end TideMonitoringService

/-- C4: starting from any alert collection holding at most one active
COASTAL_RISK alert, after any sequence of `check_and_generate_alerts`
calls the collection still holds at most one active COASTAL_RISK alert:
the deduplication check of lines 380-383 admits a new COASTAL_RISK alert
only when no active one is present, and the sweep only deactivates or
removes alerts. -/
theorem c4_coastal_risk_dedup_invariant (lat lon : ℚ)
    (s : List TideMonitoringService.TideAlert)
    (envs : List TideMonitoringService.CheckEnv)
    (h : TideMonitoringService.countActiveCoastal s ≤ 1) :
    TideMonitoringService.countActiveCoastal
      (TideMonitoringService.run_checks lat lon s envs) ≤ 1 := by
  induction envs generalizing s with
  | nil => exact h
  | cons e es ih =>
    exact ih _ (TideMonitoringService.check_preserves_coastal lat lon s
      e.current? e.forecast e.now h)

/-- C1 counterexample: on the claimed scenario — current prediction of
height 3.5 m (high tide), stormy weather, wind 18 m/s, mansion Ashwini in
the fixed high-risk subset, and no forecast point above the 3.0 m
threshold — the live `_assess_current_risk` does not return score 11: the
live path has no calendar-mansion factor, so the score is 3 + 4 + 3. -/
theorem c1_live_risk_score_counterexample :
    "Ashwini" ∈ TideMonitoringService.high_risk_nakshatras ∧
    TideMonitoringService.c1_forecast.all
      (fun p => decide (p.height_meters ≤ 3)) = true ∧
    (TideMonitoringService.assess_current_risk
      (some TideMonitoringService.c1_current)
      TideMonitoringService.c1_forecast).score ≠ 11 := by
  refine ⟨by decide, ?_, ?_⟩
  · norm_num [TideMonitoringService.c1_forecast]
  · norm_num [TideMonitoringService.assess_current_risk,
      TideMonitoringService.c1_current, TideMonitoringService.c1_forecast,
      TideMonitoringService.high_tide_threshold,
      TideMonitoringService.storm_surge_threshold]

/-- C1 amended: on that same scenario the live assessment returns score 10
(+3 height, +4 stormy, +3 wind; no mansion contribution in the live path)
and, per the five-level scale, level CRITICAL. -/
theorem c1_live_risk_scenario_amended :
    (TideMonitoringService.assess_current_risk
      (some TideMonitoringService.c1_current)
      TideMonitoringService.c1_forecast).score = 10 ∧
    (TideMonitoringService.assess_current_risk
      (some TideMonitoringService.c1_current)
      TideMonitoringService.c1_forecast).level = "CRITICAL" := by
  constructor <;>
    norm_num [TideMonitoringService.assess_current_risk,
      TideMonitoringService.c1_current, TideMonitoringService.c1_forecast,
      TideMonitoringService.high_tide_threshold,
      TideMonitoringService.storm_surge_threshold]

/-- C3 counterexample: a forecast request for 20 days (outside [1,14]) is
not rejected — the handler clamps the horizon to 14 and answers 200/ok —
and an alert-list request with a type filter matching no alert is not
rejected either — it answers 200/ok with an empty list.  Neither produces
a structured error. -/
theorem c3_invalid_input_counterexample :
    TideApi.get_tide_forecast_route 20 = TideApi.ApiResponse.ok 14 200 ∧
    TideApi.get_alerts_route (some "NOT_A_TYPE") none [TideApi.c3_alert] =
      TideApi.ApiResponse.ok [] 200 := by
  refine ⟨by decide, ?_⟩
  norm_num [TideApi.get_alerts_route, TideApi.c3_alert]
  decide

/-- C3 amended: invalid inputs are not rejected.  The forecast handler
clamps every requested horizon into [1,14] and returns a 200/ok forecast
for the clamped horizon; the alert-list handler, given a type filter value
matched by no alert, returns 200/ok with the empty list. -/
theorem c3_invalid_input_amended (days : Int) (t : String)
    (sev : Option String) (alerts : List TideMonitoringService.TideAlert)
    (h : alerts.all (fun a => !(a.alert_type == t)) = true) :
    (TideApi.get_tide_forecast_route days =
        TideApi.ApiResponse.ok (min (max days 1) 14) 200 ∧
      1 ≤ min (max days 1) 14 ∧ min (max days 1) 14 ≤ 14) ∧
    TideApi.get_alerts_route (some t) sev alerts =
      TideApi.ApiResponse.ok [] 200 := by
  have hnil : alerts.filter (fun a => a.alert_type == t) = [] := by
    rw [List.filter_eq_nil_iff]
    intro a ha
    simpa using List.all_eq_true.mp h a ha
  constructor
  · exact ⟨rfl, le_min (le_max_right _ _) (by norm_num), min_le_right _ _⟩
  · unfold TideApi.get_alerts_route
    cases sev <;> simp [hnil]

/-- C3 witness: the amended behaviour at a 20-day request and an unknown
type filter over one active alert. -/
theorem c3_invalid_input_witness :
    [TideApi.c3_alert].all (fun a => !(a.alert_type == "NOT_A_TYPE")) = true ∧
    ((TideApi.get_tide_forecast_route 20 =
        TideApi.ApiResponse.ok (min (max 20 1) 14) 200 ∧
      1 ≤ min (max (20 : Int) 1) 14 ∧ min (max (20 : Int) 1) 14 ≤ 14) ∧
    TideApi.get_alerts_route (some "NOT_A_TYPE") none [TideApi.c3_alert] =
      TideApi.ApiResponse.ok [] 200) :=
  ⟨by decide,
    c3_invalid_input_amended 20 "NOT_A_TYPE" none [TideApi.c3_alert] (by decide)⟩

namespace TideMonitoringService


lemma cleanup_active_not_expired {l : List TideAlert} {now : Int}
    {a : TideAlert} (ha : a ∈ cleanup_expired_alerts l now)
    (hact : a.is_active = true) : now ≤ a.expires_at := by
  obtain ⟨⟨b, _, rfl⟩, _⟩ := mem_cleanup_elim ha
  unfold expire_flip at hact ⊢
  split_ifs at hact ⊢ with h
  all_goals simp_all

end TideMonitoringService

/-- C5 counterexample: at time 10 the alert `c5_stale` is expired
(expires_at 5 < 10), yet the status read still counts it active, and a
`check_and_generate_alerts` call at time 10 whose assessed risk is
CRITICAL creates only the HIGH_TIDE alert — no COASTAL_RISK alert —
because the expired-but-unswept alert still blocks the dedup check.  The
sweep therefore does not run before reads or before the new-alert check. -/
theorem c5_sweep_before_reads_counterexample :
    TideMonitoringService.c5_stale.expires_at < 10 ∧
    TideMonitoringService.status_active_alert_count
      [TideMonitoringService.c5_stale] = 1 ∧
    (TideMonitoringService.assess_current_risk
      (some TideMonitoringService.c5_current) []).level = "CRITICAL" ∧
    (TideMonitoringService.check_and_generate_alerts 0 0
      [TideMonitoringService.c5_stale] (some TideMonitoringService.c5_current)
      [] 10).snd.map (fun a => a.alert_type) = ["HIGH_TIDE"] := by
  refine ⟨by decide, by decide, ?_, ?_⟩
  · norm_num [TideMonitoringService.assess_current_risk,
      TideMonitoringService.c5_current, TideMonitoringService.high_tide_threshold,
      TideMonitoringService.storm_surge_threshold]
  · norm_num [TideMonitoringService.check_and_generate_alerts,
      TideMonitoringService.tide_height_alerts,
      TideMonitoringService.coastal_risk_alerts,
      TideMonitoringService.generate_tide_alert,
      TideMonitoringService.assess_current_risk,
      TideMonitoringService.coastalActive,
      TideMonitoringService.c5_current, TideMonitoringService.c5_stale,
      TideMonitoringService.high_tide_threshold,
      TideMonitoringService.storm_surge_threshold, List.cons_ne_nil]

/-- C5 amended: the expiry sweep runs only at the END of each
`check_and_generate_alerts` call, after generation and the dedup check;
reads (status count, alert listing) do not run it.  What does hold is the
post-state property: every alert still marked active in the collection a
check call leaves behind has `expires_at` at or after that call's time. -/
theorem c5_sweep_amended (lat lon : ℚ)
    (s : List TideMonitoringService.TideAlert)
    (cur? : Option TideMonitoringService.TidePrediction)
    (fc : List TideMonitoringService.TidePrediction) (now : Int)
    (a : TideMonitoringService.TideAlert)
    (ha : a ∈ (TideMonitoringService.check_and_generate_alerts
      lat lon s cur? fc now).fst)
    (hact : a.is_active = true) : now ≤ a.expires_at :=
  TideMonitoringService.cleanup_active_not_expired ha hact

/-- C5 witness: the amended post-state property at a concrete state holding
one live alert. -/
theorem c5_sweep_amended_witness :
    (TideMonitoringService.c5_live ∈
      (TideMonitoringService.check_and_generate_alerts 0 0
        [TideMonitoringService.c5_live] none [] 0).fst) ∧
    TideMonitoringService.c5_live.is_active = true ∧
    (0 : Int) ≤ TideMonitoringService.c5_live.expires_at := by
  have ha : TideMonitoringService.c5_live ∈
      (TideMonitoringService.check_and_generate_alerts 0 0
        [TideMonitoringService.c5_live] none [] 0).fst := by
    simp [TideMonitoringService.check_and_generate_alerts,
      TideMonitoringService.tide_height_alerts,
      TideMonitoringService.coastal_risk_alerts,
      TideMonitoringService.assess_current_risk,
      TideMonitoringService.cleanup_expired_alerts,
      TideMonitoringService.expire_flip, TideMonitoringService.retain,
      TideMonitoringService.c5_live]
  exact ⟨ha, rfl,
    c5_sweep_amended 0 0 [TideMonitoringService.c5_live] none [] 0
      TideMonitoringService.c5_live ha rfl⟩

/-- C4 witness: the invariant instantiated at the empty initial collection
and one concrete check cycle. -/
theorem c4_coastal_risk_dedup_invariant_witness :
    TideMonitoringService.countActiveCoastal [] ≤ 1 ∧
    TideMonitoringService.countActiveCoastal
      (TideMonitoringService.run_checks 0 0 []
        [{ current? := none, forecast := [], now := 0 }]) ≤ 1 :=
  ⟨by decide, c4_coastal_risk_dedup_invariant 0 0 []
    [{ current? := none, forecast := [], now := 0 }] (by decide)⟩


/-- C2 counterexample: at hour 3, minute 0 the source's astronomical
waveform differs from the spec formula taken at the default amplitude 2.0:
the code's sinusoid coefficient is the literal 0.5, not amplitude/2 = 1.0,
and sin(2π·3/12.42) is strictly positive. -/
theorem c2_astronomical_tide_counterexample :
    TideForecastSimple.astronomical_tide 1.5 3 0 ≠
      TideForecastSimple.astronomical_tide_spec 1.5 2 3 0 := by
  have h2 : 2 * Real.pi * 3 / 12.42 < Real.pi := by
    rw [div_lt_iff₀ (by norm_num : (0:ℝ) < 12.42)]
    nlinarith [Real.pi_pos]
  have h3 := Real.sin_pos_of_pos_of_lt_pi (by positivity) h2
  unfold TideForecastSimple.astronomical_tide
    TideForecastSimple.astronomical_tide_spec
  dsimp only
  have harg : ((3:ℕ):ℝ) + ((0:ℕ):ℝ)/60 = 3 := by push_cast; norm_num
  rw [harg]
  intro h
  linarith [h3]

/-- C2 amended: the astronomical component is
base_height + 0.5·sin(2π·hour_fraction/12.42) — i.e. the spec formula at
amplitude = 1.0, half the claimed default — and the calculator's
`tide_range` parameter (the claimed amplitude, default 2.0) is ignored by
the height computation entirely. -/
theorem c2_astronomical_tide_amended (base_height : ℝ) (hour minute : ℕ) :
    (TideForecastSimple.astronomical_tide base_height hour minute =
      TideForecastSimple.astronomical_tide_spec base_height 1 hour minute) ∧
    ∀ (tr₁ tr₂ : ℝ) (t : TideForecastSimple.SimTime)
      (infl : TideForecastSimple.TideInfluence),
      TideForecastSimple.calculate_tide_height base_height tr₁ t infl =
        TideForecastSimple.calculate_tide_height base_height tr₂ t infl := by
  constructor
  · unfold TideForecastSimple.astronomical_tide
      TideForecastSimple.astronomical_tide_spec
    norm_num
  · intro tr₁ tr₂ t infl
    rfl

/-- C6: every prediction produced by `predict_tides` — for every start-time
indexing, every weather draw, and every horizon — has height in
[0.1, 5.0]: the calculator clamps its result (line 183 of the source). -/
theorem c6_height_bounds (times : ℕ → TideForecastSimple.SimTime)
    (weatherAt : ℕ → TideForecastSimple.WeatherData) (days : ℕ)
    (p : TideForecastSimple.TidePrediction)
    (hp : p ∈ TideForecastSimple.predict_tides times weatherAt days) :
    0.1 ≤ p.height_meters ∧ p.height_meters ≤ 5.0 := by
  unfold TideForecastSimple.predict_tides at hp
  obtain ⟨i, _, rfl⟩ := List.mem_map.mp hp
  unfold TideForecastSimple.mkPrediction TideForecastSimple.calculate_tide_height
  dsimp only
  exact ⟨le_max_left _ _, max_le (by norm_num) (min_le_left _ _)⟩

/-- C6 witness: the bounds at the first entry of a concrete one-day
forecast. -/
theorem c6_height_bounds_witness :
    (TideForecastSimple.mkPrediction (fun _ => ⟨1, 0, 0⟩)
        (fun _ => ⟨20, "clear", 5, 50⟩) 0 ∈
      TideForecastSimple.predict_tides (fun _ => ⟨1, 0, 0⟩)
        (fun _ => ⟨20, "clear", 5, 50⟩) 1) ∧
    (0.1 ≤ (TideForecastSimple.mkPrediction (fun _ => ⟨1, 0, 0⟩)
        (fun _ => ⟨20, "clear", 5, 50⟩) 0).height_meters ∧
      (TideForecastSimple.mkPrediction (fun _ => ⟨1, 0, 0⟩)
        (fun _ => ⟨20, "clear", 5, 50⟩) 0).height_meters ≤ 5.0) := by
  have hmem : TideForecastSimple.mkPrediction (fun _ => ⟨1, 0, 0⟩)
      (fun _ => ⟨20, "clear", 5, 50⟩) 0 ∈
      TideForecastSimple.predict_tides (fun _ => ⟨1, 0, 0⟩)
        (fun _ => ⟨20, "clear", 5, 50⟩) 1 := by
    unfold TideForecastSimple.predict_tides
    exact List.mem_map_of_mem _ (List.mem_range.mpr (by norm_num))
  exact ⟨hmem, c6_height_bounds _ _ 1 _ hmem⟩

/-- C8: every alert built by `generate_tide_alert` expires strictly after
its creation timestamp, and the gap is exactly the severity table of the
source (in seconds: CRITICAL 2 h = 7200, HIGH 4 h = 14400, MEDIUM
6 h = 21600, any other severity 12 h = 43200). -/
theorem c8_alert_expiry_table (lat lon : ℚ) (now : Int)
    (alert_type severity : String) (tide_data : TideMonitoringService.TideData)
    (s : List TideMonitoringService.TideAlert) :
    (TideMonitoringService.generate_tide_alert lat lon now alert_type severity
        tide_data s).fst.timestamp <
      (TideMonitoringService.generate_tide_alert lat lon now alert_type severity
        tide_data s).fst.expires_at ∧
    (TideMonitoringService.generate_tide_alert lat lon now alert_type severity
        tide_data s).fst.expires_at -
      (TideMonitoringService.generate_tide_alert lat lon now alert_type severity
        tide_data s).fst.timestamp =
      (if severity = "CRITICAL" then 7200
       else if severity = "HIGH" then 14400
       else if severity = "MEDIUM" then 21600
       else 43200) := by
  unfold TideMonitoringService.generate_tide_alert
  dsimp only
  split_ifs <;> omega

/-- C9: the expiry sweep `_cleanup_expired_alerts` is idempotent — run
twice at the same current time it flips no further alert and removes no
further alert, leaving the collection unchanged. -/
theorem c9_cleanup_idempotent (alerts : List TideMonitoringService.TideAlert)
    (now : Int) :
    TideMonitoringService.cleanup_expired_alerts
        (TideMonitoringService.cleanup_expired_alerts alerts now) now =
      TideMonitoringService.cleanup_expired_alerts alerts now := by
  have hmem : ∀ a ∈ TideMonitoringService.cleanup_expired_alerts alerts now,
      TideMonitoringService.expire_flip now a = a ∧
      TideMonitoringService.retain now a = true := by
    intro a ha
    obtain ⟨⟨b, _, rfl⟩, hr⟩ := TideMonitoringService.mem_cleanup_elim ha
    exact ⟨TideMonitoringService.expire_flip_idem now b, hr⟩
  have hdef : TideMonitoringService.cleanup_expired_alerts
      (TideMonitoringService.cleanup_expired_alerts alerts now) now =
      ((TideMonitoringService.cleanup_expired_alerts alerts now).map
        (TideMonitoringService.expire_flip now)).filter
        (TideMonitoringService.retain now) := rfl
  rw [hdef, List.map_congr_left (fun a ha => (hmem a ha).1), List.map_id',
    List.filter_eq_self.mpr (fun a ha => (hmem a ha).2)]

namespace TideMonitoringService

lemma check_snd_decomp (lat lon : ℚ) (s : List TideAlert)
    (cur? : Option TidePrediction) (fc : List TidePrediction) (now : Int) :
    (check_and_generate_alerts lat lon s cur? fc now).snd =
      (tide_height_alerts lat lon now
        (cur?.map (fun p => p.height_meters)) s).snd ++
      (coastal_risk_alerts lat lon now (cur?.map (fun p => p.height_meters))
        (assess_current_risk cur? fc).level
        (assess_current_risk cur? fc).recommendations
        (tide_height_alerts lat lon now
          (cur?.map (fun p => p.height_meters)) s).fst).snd := rfl

lemma check_fst_decomp (lat lon : ℚ) (s : List TideAlert)
    (cur? : Option TidePrediction) (fc : List TidePrediction) (now : Int) :
    (check_and_generate_alerts lat lon s cur? fc now).fst =
      cleanup_expired_alerts
        (coastal_risk_alerts lat lon now (cur?.map (fun p => p.height_meters))
          (assess_current_risk cur? fc).level
          (assess_current_risk cur? fc).recommendations
          (tide_height_alerts lat lon now
            (cur?.map (fun p => p.height_meters)) s).fst).fst now := rfl

lemma tide_height_alerts_storm {h : ℚ} (lat lon : ℚ) (now : Int)
    (s : List TideAlert) (h0 : h ≠ 0) (h4 : h > storm_surge_threshold) :
    tide_height_alerts lat lon now (some h) s =
      ((generate_tide_alert lat lon now "STORM_SURGE" "CRITICAL"
          { height := h, impact := "Severe coastal flooding expected",
            recommendations :=
              ["Immediate evacuation", "Emergency response activation"] } s).snd,
       [(generate_tide_alert lat lon now "STORM_SURGE" "CRITICAL"
          { height := h, impact := "Severe coastal flooding expected",
            recommendations :=
              ["Immediate evacuation", "Emergency response activation"] } s).fst]) := by
  unfold tide_height_alerts
  dsimp only
  rw [if_pos h0, if_pos h4]

lemma tide_height_alerts_high {h : ℚ} (lat lon : ℚ) (now : Int)
    (s : List TideAlert) (h0 : h ≠ 0) (h4 : ¬(h > storm_surge_threshold))
    (h3 : h > high_tide_threshold) :
    tide_height_alerts lat lon now (some h) s =
      ((generate_tide_alert lat lon now "HIGH_TIDE" "HIGH"
          { height := h, impact := "Coastal flooding possible",
            recommendations :=
              ["Avoid low-lying areas", "Monitor conditions"] } s).snd,
       [(generate_tide_alert lat lon now "HIGH_TIDE" "HIGH"
          { height := h, impact := "Coastal flooding possible",
            recommendations :=
              ["Avoid low-lying areas", "Monitor conditions"] } s).fst]) := by
  unfold tide_height_alerts
  dsimp only
  rw [if_pos h0, if_neg h4, if_pos h3]

lemma generate_fresh_flip (lat lon : ℚ) (now : Int) (atype sev : String)
    (td : TideData) (s : List TideAlert) :
    expire_flip now (generate_tide_alert lat lon now atype sev td s).fst =
      (generate_tide_alert lat lon now atype sev td s).fst := by
  have hx : ¬ ((generate_tide_alert lat lon now atype sev td s).fst.expires_at
      < now) := by
    rw [generate_tide_alert_expires_at]
    split_ifs <;> omega
  unfold expire_flip
  rw [if_neg hx]

lemma generate_fresh_retain (lat lon : ℚ) (now : Int) (atype sev : String)
    (td : TideData) (s : List TideAlert) :
    retain now (generate_tide_alert lat lon now atype sev td s).fst = true := by
  unfold retain
  rw [(generate_tide_alert_fields lat lon now atype sev td s).2.2.2]
  rfl

lemma generated_alert_mem_check_fst (lat lon : ℚ) (s : List TideAlert)
    (cur? : Option TidePrediction) (fc : List TidePrediction) (now : Int)
    (a : TideAlert)
    (hmem : a ∈ (tide_height_alerts lat lon now
      (cur?.map (fun p => p.height_meters)) s).fst)
    (hflip : expire_flip now a = a) (hret : retain now a = true) :
    a ∈ (check_and_generate_alerts lat lon s cur? fc now).fst := by
  rw [check_fst_decomp]
  refine mem_cleanup_of_mem ?_ hflip hret
  rw [coastal_risk_alerts_fst_eq]
  exact List.mem_append_left _ hmem

end TideMonitoringService

open TideMonitoringService in
/-- C7: in a single `check_and_generate_alerts` cycle whose current tide
height is 4.2 m (above the 4.0 m storm-surge threshold), exactly one
tide-height-triggered alert is created, a STORM_SURGE alert of severity
CRITICAL, and no HIGH_TIDE alert is created in the same cycle — the
storm-surge branch wins the if/elif — for every prior state, weather,
calendar data, forecast and assessed risk level. -/
theorem c7_storm_surge_priority (lat lon : ℚ) (s : List TideAlert) (ts : Int)
    (tt : String) (conf : ℚ) (hf : HinduFactors) (w : Option WeatherInfo)
    (forecast : List TidePrediction) (now : Int) :
    ((check_and_generate_alerts lat lon s
        (some { timestamp := ts, height_meters := 4.2, tide_type := tt,
                confidence := conf, hindu_factors := hf, weather_info := w })
        forecast now).snd.filter
      (fun a => a.alert_type == "STORM_SURGE" || a.alert_type == "HIGH_TIDE")).map
      (fun a => (a.alert_type, a.severity)) = [("STORM_SURGE", "CRITICAL")] := by
  have hnil : ∀ (height? : Option ℚ) (lvl : String) (recs : List String)
      (s1 : List TideAlert),
      ((coastal_risk_alerts lat lon now height? lvl recs s1).snd.filter
        (fun a => a.alert_type == "STORM_SURGE" ||
          a.alert_type == "HIGH_TIDE")) = [] := by
    intro height? lvl recs s1
    refine List.filter_eq_nil_iff.mpr (fun a ha => ?_)
    have := coastal_risk_alerts_snd_type lat lon now height? lvl recs s1 a ha
    simp [this]
  rw [check_snd_decomp]
  simp only [Option.map_some']
  rw [tide_height_alerts_storm lat lon now s (by norm_num)
    (by norm_num [storm_surge_threshold])]
  rw [List.filter_append, List.map_append, hnil]
  simp [generate_tide_alert_fields]

open TideMonitoringService in
/-- C10 (implicit): tide-height-triggered alerts are never deduplicated.
For every call of `check_and_generate_alerts` whose current height exceeds
the 3.0 m high-tide threshold — over EVERY prior alert collection,
including ones already holding an active alert of the same type — exactly
one new tide-height alert is created (STORM_SURGE above 4.0 m, HIGH_TIDE
otherwise) and it is appended, active, to the resulting collection; the
existing-active-alert check guards only COASTAL_RISK alerts. -/
theorem c10_tide_alerts_never_deduplicated (lat lon : ℚ) (s : List TideAlert)
    (ts : Int) (h : ℚ) (tt : String) (conf : ℚ) (hf : HinduFactors)
    (w : Option WeatherInfo) (forecast : List TidePrediction) (now : Int)
    (hh : 3 < h) :
    ((check_and_generate_alerts lat lon s
        (some { timestamp := ts, height_meters := h, tide_type := tt,
                confidence := conf, hindu_factors := hf, weather_info := w })
        forecast now).snd.filter
      (fun a => a.alert_type == "STORM_SURGE" || a.alert_type == "HIGH_TIDE")).map
      (fun a => a.alert_type) = [if 4 < h then "STORM_SURGE" else "HIGH_TIDE"] ∧
    ∃ a ∈ (check_and_generate_alerts lat lon s
        (some { timestamp := ts, height_meters := h, tide_type := tt,
                confidence := conf, hindu_factors := hf, weather_info := w })
        forecast now).fst,
      a.alert_type = (if 4 < h then "STORM_SURGE" else "HIGH_TIDE") ∧
      a.timestamp = now ∧ a.is_active = true := by
  have h0 : h ≠ 0 := ne_of_gt (by linarith)
  have hnil : ∀ (height? : Option ℚ) (lvl : String) (recs : List String)
      (s1 : List TideAlert),
      ((coastal_risk_alerts lat lon now height? lvl recs s1).snd.filter
        (fun a => a.alert_type == "STORM_SURGE" ||
          a.alert_type == "HIGH_TIDE")) = [] := by
    intro height? lvl recs s1
    refine List.filter_eq_nil_iff.mpr (fun a ha => ?_)
    have := coastal_risk_alerts_snd_type lat lon now height? lvl recs s1 a ha
    simp [this]
  by_cases h4 : (4 : ℚ) < h
  · have h4s : h > storm_surge_threshold := by
      simpa [storm_surge_threshold] using h4
    rw [if_pos h4]
    constructor
    · rw [check_snd_decomp]
      simp only [Option.map_some']
      rw [tide_height_alerts_storm lat lon now s h0 h4s,
        List.filter_append, List.map_append, hnil]
      simp [generate_tide_alert_fields]
    · refine ⟨_, generated_alert_mem_check_fst lat lon s _ forecast now _ ?_
        (generate_fresh_flip lat lon now "STORM_SURGE" "CRITICAL"
          { height := h, impact := "Severe coastal flooding expected",
            recommendations :=
              ["Immediate evacuation", "Emergency response activation"] } s)
        (generate_fresh_retain lat lon now "STORM_SURGE" "CRITICAL"
          { height := h, impact := "Severe coastal flooding expected",
            recommendations :=
              ["Immediate evacuation", "Emergency response activation"] } s),
        (generate_tide_alert_fields lat lon now "STORM_SURGE" "CRITICAL"
          { height := h, impact := "Severe coastal flooding expected",
            recommendations :=
              ["Immediate evacuation", "Emergency response activation"] } s).1,
        (generate_tide_alert_fields lat lon now "STORM_SURGE" "CRITICAL"
          { height := h, impact := "Severe coastal flooding expected",
            recommendations :=
              ["Immediate evacuation", "Emergency response activation"] } s).2.2.1,
        (generate_tide_alert_fields lat lon now "STORM_SURGE" "CRITICAL"
          { height := h, impact := "Severe coastal flooding expected",
            recommendations :=
              ["Immediate evacuation", "Emergency response activation"] } s).2.2.2⟩
      simp only [Option.map_some']
      rw [tide_height_alerts_storm lat lon now s h0 h4s]
      dsimp only
      rw [generate_tide_alert_snd]
      exact List.mem_append_right _ (List.mem_singleton_self _)
  · have h4s : ¬ (h > storm_surge_threshold) := by
      simpa [storm_surge_threshold] using h4
    have h3s : h > high_tide_threshold := by
      simpa [high_tide_threshold] using hh
    rw [if_neg h4]
    constructor
    · rw [check_snd_decomp]
      simp only [Option.map_some']
      rw [tide_height_alerts_high lat lon now s h0 h4s h3s,
        List.filter_append, List.map_append, hnil]
      simp [generate_tide_alert_fields]
    · refine ⟨_, generated_alert_mem_check_fst lat lon s _ forecast now _ ?_
        (generate_fresh_flip lat lon now "HIGH_TIDE" "HIGH"
          { height := h, impact := "Coastal flooding possible",
            recommendations :=
              ["Avoid low-lying areas", "Monitor conditions"] } s)
        (generate_fresh_retain lat lon now "HIGH_TIDE" "HIGH"
          { height := h, impact := "Coastal flooding possible",
            recommendations :=
              ["Avoid low-lying areas", "Monitor conditions"] } s),
        (generate_tide_alert_fields lat lon now "HIGH_TIDE" "HIGH"
          { height := h, impact := "Coastal flooding possible",
            recommendations :=
              ["Avoid low-lying areas", "Monitor conditions"] } s).1,
        (generate_tide_alert_fields lat lon now "HIGH_TIDE" "HIGH"
          { height := h, impact := "Coastal flooding possible",
            recommendations :=
              ["Avoid low-lying areas", "Monitor conditions"] } s).2.2.1,
        (generate_tide_alert_fields lat lon now "HIGH_TIDE" "HIGH"
          { height := h, impact := "Coastal flooding possible",
            recommendations :=
              ["Avoid low-lying areas", "Monitor conditions"] } s).2.2.2⟩
      simp only [Option.map_some']
      rw [tide_height_alerts_high lat lon now s h0 h4s h3s]
      dsimp only
      rw [generate_tide_alert_snd]
      exact List.mem_append_right _ (List.mem_singleton_self _)

open TideMonitoringService in
/-- C10 witness: non-deduplication at height 3.5 m over a state already
holding an active HIGH_TIDE alert. -/
theorem c10_tide_alerts_never_deduplicated_witness :
    (3 : ℚ) < 3.5 ∧
    (((check_and_generate_alerts 0 0
        [⟨"tide_HIGH_TIDE_prior", 0, "HIGH_TIDE", "HIGH", (0, 0), 3,
          "Coastal flooding possible", [], 14400, true⟩]
        (some { timestamp := 0, height_meters := 3.5, tide_type := "high",
                confidence := 0.85,
                hindu_factors := { tithi := "Purnima", nakshatra := "Ashwini",
                                   paksha := "Shukla", lunar_day := 1 },
                weather_info := none })
        [] 0).snd.filter
      (fun a => a.alert_type == "STORM_SURGE" || a.alert_type == "HIGH_TIDE")).map
      (fun a => a.alert_type) =
        [if (4 : ℚ) < 3.5 then "STORM_SURGE" else "HIGH_TIDE"] ∧
    ∃ a ∈ (check_and_generate_alerts 0 0
        [⟨"tide_HIGH_TIDE_prior", 0, "HIGH_TIDE", "HIGH", (0, 0), 3,
          "Coastal flooding possible", [], 14400, true⟩]
        (some { timestamp := 0, height_meters := 3.5, tide_type := "high",
                confidence := 0.85,
                hindu_factors := { tithi := "Purnima", nakshatra := "Ashwini",
                                   paksha := "Shukla", lunar_day := 1 },
                weather_info := none })
        [] 0).fst,
      a.alert_type = (if (4 : ℚ) < 3.5 then "STORM_SURGE" else "HIGH_TIDE") ∧
      a.timestamp = 0 ∧ a.is_active = true) :=
  ⟨by norm_num,
    c10_tide_alerts_never_deduplicated 0 0
      [⟨"tide_HIGH_TIDE_prior", 0, "HIGH_TIDE", "HIGH", (0, 0), 3,
        "Coastal flooding possible", [], 14400, true⟩]
      0 3.5 "high" 0.85
      { tithi := "Purnima", nakshatra := "Ashwini",
        paksha := "Shukla", lunar_day := 1 }
      none [] 0 (by norm_num)⟩
